import Mathlib

/-!
Shallow embedding of the CRM_Telecalling repository's lead subsystem
(backend `src/backend/src/index.js`, frontend
`src/frontend/src/pages/AdminDashboard.jsx`).

The relational store is modelled as a `List Lead` snapshot; each Express
handler becomes a Lean function from the request data and the current
store/audit-log to an HTTP-status-like outcome and the new store/audit-log.
JavaScript strings are Lean `String`s; `String.prototype.trim` and
`toLowerCase` are re-implemented over `List Char` so that they reduce in the
kernel.  SQL `DATETIME`/`DATE` values are modelled as natural numbers
(seconds since epoch for timestamps, day numbers for `DATE` columns);
`new Date(dateString)` on a day-granular date yields that day's midnight,
i.e. `day * dayLen` seconds.
-/

/-- Whitespace test used by the JavaScript `String.prototype.trim` model. -/
def isWsp (c : Char) : Bool :=
  c = ' ' || c = '\t' || c = '\n' || c = '\r'

/-- Model of JavaScript `String.prototype.trim`: drop leading and trailing
whitespace. -/
def strTrim (s : String) : String :=
  ⟨((s.data.dropWhile isWsp).reverse.dropWhile isWsp).reverse⟩

/-- Model of JavaScript `String.prototype.toLowerCase` (ASCII lowering). -/
def strToLower (s : String) : String :=
  ⟨s.data.map Char.toLower⟩

/-- Prefix test on character lists. -/
def charsPrefix : List Char → List Char → Bool
  | [], _ => true
  | _ :: _, [] => false
  | a :: p, b :: l => a = b && charsPrefix p l

/-- Contiguous-substring test on character lists. -/
def charsInfix : List Char → List Char → Bool
  | p, [] => charsPrefix p []
  | p, b :: t => charsPrefix p (b :: t) || charsInfix p t

/-- Model of JavaScript `s.includes(q)`. -/
def strIncludes (s q : String) : Bool :=
  charsInfix q.data s.data

/-- Model of JavaScript `String(x || "")` for a nullable numeric column. -/
def optNatToStr : Option Nat → String
  | none => ""
  | some n => toString n

/-- Row of the `users` table (the columns the handlers read). -/
structure User where
  id : Nat
  name : String
  email : String
  role : String
  theme : String
deriving DecidableEq

/-- Row of the `leads` table.  `typ` embeds the SQL column `type` (a Lean
keyword).  `next_follow_up` is a day number, `created_at` a timestamp in
seconds; both reflect the `DATE`/`DATETIME` columns.  `notes` holds the
JSON-stringified notes text exactly as the handlers store it. -/
structure Lead where
  id : Nat
  name : String
  phone : String
  email : String
  typ : String
  source : String
  score : Option Int
  status : String
  assigned_to : Option Nat
  next_follow_up : Option Nat
  remarks : String
  notes : String
  created_at : Nat
deriving DecidableEq

/-- A JSON scalar appearing in a request body. -/
inductive Val where
  | vnull
  | vnum (n : Int)
  | vstr (s : String)
deriving DecidableEq

/-- Claim set signed into a JWT by `jwt.sign(user, JWT_SECRET)`.  Signing
itself is a capability outside this core, so a token is modelled as the
claim payload it certifies.  `name` is the raw request-body value, which may
be absent. -/
structure AuthPayload where
  id : Nat
  name : Option String
  email : String
  role : String
  theme : String
deriving DecidableEq

/-- Structured `details` payload of an audit row (the handlers store either
`null`, a JSON-stringified object, or the request body). -/
inductive AuditDetails where
  | empty
  | mergeInfo (keep : Nat) (removed : List Nat)
  | reqBody (fields : List (String × Val))
  | userObj (u : AuthPayload)
deriving DecidableEq

/-- Row of the `audit_logs` table. -/
structure AuditRecord where
  entity : String
  entityId : String
  action : String
  details : AuditDetails
  performedBy : String
deriving DecidableEq

/-- HTTP outcome of a handler, by status code family. -/
inductive ApiStatus where
  | ok
  | badRequest
  | forbidden
  | notFound
  | internalError
deriving DecidableEq

/-- Outcome of a mutating `/api/leads` handler: response status plus the
store and audit log after the request. -/
structure LeadsResult where
  status : ApiStatus
  store : List Lead
  log : List AuditRecord
deriving DecidableEq

/-- `ORDER BY created_at DESC`: newest first. -/
def byCreatedDesc (a b : Lead) : Prop :=
  b.created_at ≤ a.created_at

instance : DecidableRel byCreatedDesc :=
  fun a b => inferInstanceAs (Decidable (b.created_at ≤ a.created_at))

instance : IsTotal Lead byCreatedDesc :=
  ⟨fun a b => Nat.le_total b.created_at a.created_at⟩

instance : IsTrans Lead byCreatedDesc :=
  ⟨fun _ _ _ hab hbc => Nat.le_trans hbc hab⟩

/-- `GET /api/leads` (index.js lines 281-293): a telecaller only sees rows
with `assigned_to` equal to their own id, everyone else sees all rows;
the result is ordered by `created_at DESC`. -/
def listLeads (user : User) (store : List Lead) : List Lead :=
  let rows := if user.role = "telecaller"
    then store.filter (fun l => l.assigned_to = some user.id)
    else store
  List.insertionSort byCreatedDesc rows

/-- `GET /api/leads/:id` (index.js lines 295-302): fetch by id; 404 when
absent.  The handler runs only `authMiddleware` and never consults the
caller's role or id. -/
def getLead (user : User) (id : Nat) (store : List Lead) : ApiStatus × Option Lead :=
  match store.find? (fun l => l.id = id) with
  | some row => (ApiStatus.ok, some row)
  | none => (ApiStatus.notFound, none)

/-- Allow-list of `PUT /api/leads/:id` (index.js line 317). -/
def allowedUpdateFields : List String :=
  ["name", "phone", "email", "type", "source", "score", "status",
   "assigned_to", "next_follow_up", "remarks", "notes"]

/-- Coercion of a JSON scalar stored into a TEXT column. -/
def valToStr : Val → String
  | Val.vstr s => s
  | Val.vnum n => toString n
  | Val.vnull => ""

/-- Coercion of a JSON scalar stored into the INTEGER `score` column. -/
def valToOptInt : Val → Option Int
  | Val.vnum n => some n
  | _ => none

/-- Coercion of a JSON scalar stored into a nullable id/date column. -/
def valToOptNat : Val → Option Nat
  | Val.vnum n => if n < 0 then none else some n.toNat
  | _ => none

/-- One `SET column = ?` assignment of the dynamic UPDATE built by
`PUT /api/leads/:id`; `notes` goes through `JSON.stringify`. -/
def applyField (l : Lead) (kv : String × Val) : Lead :=
  match kv.1 with
  | "name" => { l with name := valToStr kv.2 }
  | "phone" => { l with phone := valToStr kv.2 }
  | "email" => { l with email := valToStr kv.2 }
  | "type" => { l with typ := valToStr kv.2 }
  | "source" => { l with source := valToStr kv.2 }
  | "score" => { l with score := valToOptInt kv.2 }
  | "status" => { l with status := valToStr kv.2 }
  | "assigned_to" => { l with assigned_to := valToOptNat kv.2 }
  | "next_follow_up" => { l with next_follow_up := valToOptNat kv.2 }
  | "remarks" => { l with remarks := valToStr kv.2 }
  | "notes" => { l with notes := valToStr kv.2 }
  | _ => l

/-- `const fields = Object.keys(req.body).filter(k => allowed.includes(k))`
of `PUT /api/leads/:id` (index.js line 318). -/
def updateFieldsOf (reqBody : List (String × Val)) : List (String × Val) :=
  reqBody.filter (fun kv => allowedUpdateFields.contains kv.1)

/-- `PUT /api/leads/:id` (index.js lines 315-328): keep only allow-listed
body fields, reject with 400 only when none remain, otherwise apply them to
the row with the given id and append one audit row whose `details` is the
full request body.  The handler runs only `authMiddleware`: no role or
ownership check. -/
def updateLead (user : User) (id : Nat) (reqBody : List (String × Val))
    (store : List Lead) (log : List AuditRecord) : LeadsResult :=
  if (updateFieldsOf reqBody).isEmpty then ⟨ApiStatus.badRequest, store, log⟩
  else
    ⟨ApiStatus.ok,
     store.map (fun l => if l.id = id then (updateFieldsOf reqBody).foldl applyField l else l),
     log ++ [⟨"lead", toString id, "update", AuditDetails.reqBody reqBody, user.email⟩]⟩

/-- `DELETE /api/leads/:id` (index.js lines 330-337): admin/manager only
(`requireRole`), then delete the row and append one audit row. -/
def deleteLead (user : User) (id : Nat) (store : List Lead)
    (log : List AuditRecord) : LeadsResult :=
  if user.role = "admin" ∨ user.role = "manager" then
    ⟨ApiStatus.ok,
     store.filter (fun l => decide (l.id ≠ id)),
     log ++ [⟨"lead", toString id, "delete", AuditDetails.empty, user.email⟩]⟩
  else ⟨ApiStatus.forbidden, store, log⟩

/-- `POST /api/leads/merge` (index.js lines 355-364): admin/manager only;
400 when `keepId` is absent/falsy (`!keepId`, so also the number 0) or
`mergeIds` is not an array; otherwise `DELETE FROM leads WHERE id IN
(mergeIds)` (SQLite accepts an empty IN list, deleting nothing) and one
audit row with action `merge` and details `{keep, removed}`.  No check that
`keepId` is outside `mergeIds` and no emptiness check exist in the source. -/
def mergeLeads (user : User) (keepId : Option Nat) (mergeIds : Option (List Nat))
    (store : List Lead) (log : List AuditRecord) : LeadsResult :=
  if user.role = "admin" ∨ user.role = "manager" then
    match keepId, mergeIds with
    | some k, some ids =>
      if k = 0 then ⟨ApiStatus.badRequest, store, log⟩
      else
        ⟨ApiStatus.ok,
         store.filter (fun l => decide (l.id ∉ ids)),
         log ++ [⟨"lead", toString k, "merge", AuditDetails.mergeInfo k ids, user.email⟩]⟩
    | _, _ => ⟨ApiStatus.badRequest, store, log⟩
  else ⟨ApiStatus.forbidden, store, log⟩

/-- Request body of `POST /api/auth/register` (all JSON fields optional). -/
structure RegisterBody where
  name : Option String
  email : Option String
  password : Option String
  role : Option String
  theme : Option String
deriving DecidableEq

/-- Successful register response `{token, user}`; the token is the signed
claim set (see `AuthPayload`). -/
structure RegisterOk where
  token : AuthPayload
  user : AuthPayload
deriving DecidableEq

/-- Outcome of `POST /api/auth/register`. -/
structure RegisterResult where
  status : ApiStatus
  payload : Option RegisterOk
  users : List User
  log : List AuditRecord
deriving DecidableEq

/-- SQLite `AUTOINCREMENT`: one more than the largest id in use. -/
def nextId (users : List User) : Nat :=
  (users.map (fun u => u.id)).foldr max 0 + 1

/-- JavaScript `x || d` for an optional string (defaults on absent or ""). -/
def strOrDefault (v : Option String) (d : String) : String :=
  match v with
  | some s => if s = "" then d else s
  | none => d

/-- `POST /api/auth/register` (index.js lines 197-210): no auth middleware
runs, so no credential is required.  400 when email or password is missing
or falsy, or when the `users.email` UNIQUE constraint fires.  The row is
inserted with `role || 'telecaller'` and `theme || 'light'`, one audit row
is appended, and a token signing `{id, name, email, role, theme}` is
returned together with that same user object. -/
def register (body : RegisterBody) (users : List User)
    (log : List AuditRecord) : RegisterResult :=
  match body.email, body.password with
  | some email, some password =>
    if email = "" ∨ password = "" then ⟨ApiStatus.badRequest, none, users, log⟩
    else if users.any (fun u => u.email = email) then
      ⟨ApiStatus.badRequest, none, users, log⟩
    else
      let role := strOrDefault body.role "telecaller"
      let theme := strOrDefault body.theme "light"
      let uid := nextId users
      let payload : AuthPayload := ⟨uid, body.name, email, role, theme⟩
      ⟨ApiStatus.ok, some ⟨payload, payload⟩,
       users ++ [⟨uid, (body.name).getD "", email, role, theme⟩],
       log ++ [⟨"user", toString uid, "create", AuditDetails.userObj payload, email⟩]⟩
  | _, _ => ⟨ApiStatus.badRequest, none, users, log⟩

/-- Request data handed to the frontend `createLead`/`computeScore`
(AdminDashboard.jsx): the fields `computeScore` inspects plus the optional
explicit score. -/
structure LeadInput where
  name : String
  phone : String
  email : String
  typ : String
  source : String
  score : Option Int
deriving DecidableEq

/-- Deterministic part of `computeScore` (AdminDashboard.jsx lines 296-303):
email present +10, phone present +20, source "website" +5, type "insurance"
+8 (the latter two case-insensitively). -/
def computeScoreBase (lead : LeadInput) : Nat :=
  (if lead.email ≠ "" then 10 else 0) +
  (if lead.phone ≠ "" then 20 else 0) +
  (if strToLower lead.source = "website" then 5 else 0) +
  (if strToLower lead.typ = "insurance" then 8 else 0)

/-- `computeScore` (AdminDashboard.jsx lines 296-303).  The call
`Math.floor(Math.random() * 10)` is modelled by the explicit jitter
argument, which ranges over 0..9. -/
def computeScore (jitter : Nat) (lead : LeadInput) : Nat :=
  computeScoreBase lead + jitter

/-- Score stored by the frontend `createLead` (AdminDashboard.jsx lines
242-247): `if (!data.score) data.score = computeScore(data)`, so an absent
or zero score is replaced by the computed one. -/
def createLeadScore (jitter : Nat) (data : LeadInput) : Int :=
  match data.score with
  | some s => if s = 0 then (computeScore jitter data : Int) else s
  | none => (computeScore jitter data : Int)

/-- Grouping key of `findDuplicates` (AdminDashboard.jsx line 399):
`((l.phone || "") + "|" + (l.email || "")).trim()`.  Note the separator is
inside the trimmed string, so the key always contains at least `|`. -/
def dupKey (l : Lead) : String :=
  strTrim (l.phone ++ "|" ++ l.email)

/-- First-occurrence key accumulation of the JS object map, with the
`if (!key) return` guard skipping falsy (empty) keys. -/
def insertKey (ks : List String) (k : String) : List String :=
  if k = "" then ks
  else if ks.contains k then ks
  else ks ++ [k]

/-- Distinct non-empty keys in first-occurrence order. -/
def dupKeys (leads : List Lead) : List String :=
  leads.foldl (fun ks l => insertKey ks (dupKey l)) []

/-- `findDuplicates` (AdminDashboard.jsx lines 396-405): group the leads by
`dupKey`, skip falsy keys, and return the groups of size at least two as
`{key, values}` pairs in key first-occurrence order. -/
def findDuplicates (leads : List Lead) : List (String × List Lead) :=
  (dupKeys leads).filterMap (fun k =>
    let group := leads.filter (fun l => dupKey l = k)
    if 2 ≤ group.length then some (k, group) else none)

/-- Frontend `filteredLeads` memo (AdminDashboard.jsx lines 336-348): text
search, then status/type/assignee equality filters, then the creation-date
range with `>=`/`<=` comparisons.  An empty string models a falsy filter
value; `dateFrom`/`dateTo` are timestamps (`none` when the input is empty).
The `l.created_at &&` truthiness guard of the source is vacuous here because
the DATETIME column is filled by `DEFAULT CURRENT_TIMESTAMP`. -/
def filteredLeads (searchTerm filterStatus filterType filterUser : String)
    (dateFrom dateTo : Option Nat) (leads : List Lead) : List Lead :=
  let q := strToLower (strTrim searchTerm)
  let d1 := if q ≠ ""
    then leads.filter (fun it =>
      strIncludes (strToLower it.name) q || strIncludes (strToLower it.phone) q ||
      strIncludes (strToLower it.email) q)
    else leads
  let d2 := if filterStatus ≠ ""
    then d1.filter (fun l => strToLower l.status = strToLower filterStatus)
    else d1
  let d3 := if filterType ≠ ""
    then d2.filter (fun l => strToLower l.typ = strToLower filterType)
    else d2
  let d4 := if filterUser ≠ ""
    then d3.filter (fun l => optNatToStr l.assigned_to = filterUser)
    else d3
  let d5 := match dateFrom with
    | some fr => d4.filter (fun l => fr ≤ l.created_at)
    | none => d4
  match dateTo with
  | some upTo => d5.filter (fun l => l.created_at ≤ upTo)
  | none => d5

/-- Seconds per day, for converting a day-granular `DATE` to the timestamp
of its midnight (`new Date("YYYY-MM-DD")`). -/
def dayLen : Nat := 86400

/-- `now.toISOString().slice(0, 10)`: the calendar day of an instant. -/
def todayOf (now : Nat) : Nat :=
  now / dayLen

/-- Count of `l.next_follow_up === today` in `generateAlerts`
(AdminDashboard.jsx line 209). -/
def dueTodayCount (now : Nat) (leadsArr : List Lead) : Nat :=
  (leadsArr.filter (fun l => l.next_follow_up = some (todayOf now))).length

/-- Count of statuses in {pending, follow-up} in `generateAlerts`
(AdminDashboard.jsx line 210). -/
def pendingCount (leadsArr : List Lead) : Nat :=
  (leadsArr.filter (fun l =>
    strToLower l.status = "pending" || strToLower l.status = "follow-up")).length

/-- Count of `l.next_follow_up && new Date(l.next_follow_up) < now` in
`generateAlerts` (AdminDashboard.jsx line 211): the follow-up day's midnight
compared against the current instant. -/
def missedCount (now : Nat) (leadsArr : List Lead) : Nat :=
  (leadsArr.filter (fun l =>
    match l.next_follow_up with
    | some fDay => decide (fDay * dayLen < now)
    | none => false)).length

/-- `generateAlerts` (AdminDashboard.jsx lines 206-217); the `callsArr`
parameter of the source is unused there and omitted.  Each non-zero count
pushes one alert string. -/
def generateAlerts (now : Nat) (leadsArr : List Lead) : List String :=
  (if dueTodayCount now leadsArr ≠ 0
    then ["📅 " ++ toString (dueTodayCount now leadsArr) ++ " follow-ups for today"]
    else [])
  ++ (if pendingCount leadsArr ≠ 0
    then ["⏳ " ++ toString (pendingCount leadsArr) ++ " pending items"]
    else [])
  ++ (if missedCount now leadsArr ≠ 0
    then ["⚠️ " ++ toString (missedCount now leadsArr) ++ " missed follow-ups"]
    else [])

/-- The seeded admin account (index.js lines 119-128). -/
def adminU : User := ⟨1, "Admin User", "admin@crm.com", "admin", "light"⟩

/-- A telecaller account used as a concrete caller. -/
def telecallerA : User := ⟨3, "Asha", "asha@crm.com", "telecaller", "light"⟩

/-- A second telecaller account. -/
def telecallerB : User := ⟨4, "Bela", "bela@crm.com", "telecaller", "light"⟩

/-- A lead row with the table's column defaults. -/
def baseLead : Lead :=
  { id := 0, name := "", phone := "", email := "", typ := "", source := "",
    score := none, status := "new", assigned_to := none, next_follow_up := none,
    remarks := "", notes := "[]", created_at := 0 }

/-- Concrete lead rows used by the witnesses and counterexamples. -/
def leadOne : Lead := { baseLead with id := 1, name := "Lead One", created_at := 100 }

def leadTwo : Lead := { baseLead with id := 2, name := "Lead Two", created_at := 200 }

def leadOfA : Lead :=
  { baseLead with id := 6, name := "For Asha", assigned_to := some 3, created_at := 300 }

def leadOfB : Lead :=
  { baseLead with
    id := 7
    name := "For Bela"
    assigned_to := some 4
    score := some 3
    created_at := 400 }

/-- C1: the claim states that a `merge(keepId, mergeIds)` with
`keepId ∈ mergeIds` (or with empty `mergeIds`) fails with `InvalidArgument`
and leaves the store unchanged.  The handler performs no such validation:
with `keepId = 1 ∈ mergeIds = [1, 2]` it answers success and deletes every
listed lead, including the one that was to be kept. -/
theorem merge_overlap_counterexample :
    (1 : Nat) ∈ [1, 2]
    ∧ (mergeLeads adminU (some 1) (some [1, 2]) [leadOne, leadTwo] []).status
        ≠ ApiStatus.badRequest
    ∧ (mergeLeads adminU (some 1) (some [1, 2]) [leadOne, leadTwo] []).store
        ≠ [leadOne, leadTwo]
    ∧ (mergeLeads adminU (some 1) (some [1, 2]) [leadOne, leadTwo] []).store = [] := by
  decide

/-- C1 (amended): merge validates only that `keepId` is present and truthy
and that `mergeIds` is an array.  For any admin/manager caller and truthy
`keepId` it answers success; an empty `mergeIds` deletes nothing, and when
`keepId ∈ mergeIds` the kept lead itself is deleted with the rest. -/
theorem merge_no_overlap_validation (u : User) (k : Nat) (ids : List Nat)
    (store : List Lead) (log : List AuditRecord)
    (hrole : u.role = "admin" ∨ u.role = "manager") (hk : k ≠ 0) :
    (mergeLeads u (some k) (some ids) store log).status = ApiStatus.ok
    ∧ (ids = [] → (mergeLeads u (some k) (some ids) store log).store = store)
    ∧ (k ∈ ids → ∀ l ∈ (mergeLeads u (some k) (some ids) store log).store, l.id ≠ k) := by
  unfold mergeLeads
  rw [if_pos hrole]
  simp only [if_neg hk]
  refine ⟨trivial, ?_, ?_⟩
  · rintro rfl
    exact List.filter_eq_self.mpr (fun a _ => by simp)
  · intro hkin l hl
    have hmem := (List.mem_filter.mp hl).2
    simp only [decide_eq_true_eq] at hmem
    intro h
    exact hmem (h ▸ hkin)

/-- C1 witness: concrete instantiation of `merge_no_overlap_validation`. -/
theorem merge_no_overlap_validation_witness :
    (mergeLeads adminU (some 1) (some [1, 2]) [leadOne, leadTwo] []).status = ApiStatus.ok
    ∧ ([1, 2] = ([] : List Nat)
        → (mergeLeads adminU (some 1) (some [1, 2]) [leadOne, leadTwo] []).store
            = [leadOne, leadTwo])
    ∧ (1 ∈ [1, 2]
        → ∀ l ∈ (mergeLeads adminU (some 1) (some [1, 2]) [leadOne, leadTwo] []).store,
            l.id ≠ 1) :=
  merge_no_overlap_validation adminU 1 [1, 2] [leadOne, leadTwo] []
    (Or.inl rfl) (by decide)

/-- C2: a merge whose `keepId` is outside the non-empty `mergeIds` succeeds,
removes every lead whose id is in `mergeIds`, keeps the `keepId` row with
all its fields unchanged (the surviving row is the very row that was in the
store), and appends exactly one audit record with action `merge`
summarizing the kept and removed ids. -/
theorem merge_success_effects (u : User) (k : Nat) (ids : List Nat)
    (store : List Lead) (log : List AuditRecord)
    (hrole : u.role = "admin" ∨ u.role = "manager") (hk : k ≠ 0)
    (hkeep : k ∉ ids) (hne : ids ≠ []) :
    (mergeLeads u (some k) (some ids) store log).status = ApiStatus.ok
    ∧ (∀ l ∈ (mergeLeads u (some k) (some ids) store log).store, l.id ∉ ids)
    ∧ (∀ l ∈ store, l.id = k → l ∈ (mergeLeads u (some k) (some ids) store log).store)
    ∧ (mergeLeads u (some k) (some ids) store log).log
        = log ++ [⟨"lead", toString k, "merge", AuditDetails.mergeInfo k ids, u.email⟩] := by
  unfold mergeLeads
  rw [if_pos hrole]
  simp only [if_neg hk]
  refine ⟨trivial, ?_, ?_, trivial⟩
  · intro l hl
    have hmem := (List.mem_filter.mp hl).2
    simpa using hmem
  · intro l hl hid
    refine List.mem_filter.mpr ⟨hl, ?_⟩
    simpa [hid] using hkeep

/-- C2 witness: concrete instantiation of `merge_success_effects`. -/
theorem merge_success_effects_witness :
    (mergeLeads adminU (some 1) (some [2]) [leadOne, leadTwo] []).status = ApiStatus.ok
    ∧ (∀ l ∈ (mergeLeads adminU (some 1) (some [2]) [leadOne, leadTwo] []).store,
        l.id ∉ [2])
    ∧ (∀ l ∈ [leadOne, leadTwo], l.id = 1
        → l ∈ (mergeLeads adminU (some 1) (some [2]) [leadOne, leadTwo] []).store)
    ∧ (mergeLeads adminU (some 1) (some [2]) [leadOne, leadTwo] []).log
        = [] ++ [⟨"lead", toString 1, "merge", AuditDetails.mergeInfo 1 [2], adminU.email⟩] :=
  merge_success_effects adminU 1 [2] [leadOne, leadTwo] []
    (Or.inl rfl) (by decide) (by decide) (by decide)

/-- C3: the claim states that every telecaller read, list and read-by-id
alike, returns only leads assigned to the caller.  `GET /api/leads/:id`
performs no scoping: telecaller Asha (id 3) successfully reads the lead
assigned to account 4. -/
theorem telecaller_read_by_id_counterexample :
    telecallerA.role = "telecaller"
    ∧ (getLead telecallerA 7 [leadOfB]).1 = ApiStatus.ok
    ∧ (getLead telecallerA 7 [leadOfB]).2 = some leadOfB
    ∧ leadOfB.assigned_to ≠ some telecallerA.id := by
  decide

/-- C3 (amended): the scoping invariant holds for `list` only — a
telecaller's `GET /api/leads` returns exclusively leads with `assigned_to`
equal to the caller's id — while `GET /api/leads/:id` ignores the caller
entirely (it answers the same for a telecaller as for the admin). -/
theorem telecaller_scoping_list_only (u : User) (store : List Lead)
    (hu : u.role = "telecaller") :
    (∀ l ∈ listLeads u store, l.assigned_to = some u.id)
    ∧ (∀ id, getLead u id store = getLead adminU id store) := by
  constructor
  · intro l hl
    simp only [listLeads, hu, if_true, List.mem_insertionSort] at hl
    have hmem := (List.mem_filter.mp hl).2
    simpa using hmem
  · intro _
    rfl

/-- C3 witness: concrete instantiation of `telecaller_scoping_list_only`. -/
theorem telecaller_scoping_list_only_witness :
    (∀ l ∈ listLeads telecallerA [leadOfA, leadOfB], l.assigned_to = some telecallerA.id)
    ∧ (∀ id, getLead telecallerA id [leadOfA, leadOfB] = getLead adminU id [leadOfA, leadOfB]) :=
  telecaller_scoping_list_only telecallerA [leadOfA, leadOfB] rfl

/-- C4: the claim states a telecaller can never change `assignedTo` or
`score`.  `PUT /api/leads/:id` runs no role or ownership check:
telecaller Asha reassigns to herself a lead that belongs to account 4,
and the update is applied. -/
theorem telecaller_update_assigned_to_counterexample :
    telecallerA.role = "telecaller"
    ∧ leadOfB.assigned_to ≠ some telecallerA.id
    ∧ (updateLead telecallerA 7 [("assigned_to", Val.vnum 3), ("score", Val.vnum 99)]
        [leadOfB] []).status = ApiStatus.ok
    ∧ (updateLead telecallerA 7 [("assigned_to", Val.vnum 3), ("score", Val.vnum 99)]
        [leadOfB] []).store
        = [{ leadOfB with assigned_to := some 3, score := some 99 }] := by
  decide

/-- C4 (amended): deletion is indeed reserved to admin/manager — a
telecaller's `DELETE /api/leads/:id` is rejected with `Forbidden` and the
store is unchanged — but `PUT /api/leads/:id` is entirely role- and
ownership-blind: its status and resulting store are identical for any two
callers, so a telecaller can mutate any allow-listed field (including
`assigned_to` and `score`) of any lead. -/
theorem lead_update_unscoped_delete_gated (u v : User) (id : Nat)
    (body : List (String × Val)) (store : List Lead) (log : List AuditRecord)
    (hu : u.role = "telecaller") :
    deleteLead u id store log = ⟨ApiStatus.forbidden, store, log⟩
    ∧ (updateLead u id body store log).status = (updateLead v id body store log).status
    ∧ (updateLead u id body store log).store = (updateLead v id body store log).store := by
  refine ⟨?_, ?_, ?_⟩
  · unfold deleteLead
    rw [if_neg]
    rintro (h | h) <;> rw [hu] at h <;> simp at h
  · unfold updateLead
    cases (updateFieldsOf body).isEmpty <;> rfl
  · unfold updateLead
    cases (updateFieldsOf body).isEmpty <;> rfl

/-- C4 witness: concrete instantiation of `lead_update_unscoped_delete_gated`. -/
theorem lead_update_unscoped_delete_gated_witness :
    deleteLead telecallerA 7 [leadOfB] [] = ⟨ApiStatus.forbidden, [leadOfB], []⟩
    ∧ (updateLead telecallerA 7 [("assigned_to", Val.vnum 3)] [leadOfB] []).status
        = (updateLead adminU 7 [("assigned_to", Val.vnum 3)] [leadOfB] []).status
    ∧ (updateLead telecallerA 7 [("assigned_to", Val.vnum 3)] [leadOfB] []).store
        = (updateLead adminU 7 [("assigned_to", Val.vnum 3)] [leadOfB] []).store :=
  lead_update_unscoped_delete_gated telecallerA adminU 7
    [("assigned_to", Val.vnum 3)] [leadOfB] [] rfl

/-- C7: the claim states an update containing a field outside the
allow-list is rejected with `InvalidArgument`.  The handler instead filters
the body down to the allow-listed keys: with body
`{name: "renamed", bogus: "y"}` it answers success and applies the rest. -/
theorem update_unknown_field_counterexample :
    allowedUpdateFields.contains "bogus" = false
    ∧ (updateLead adminU 1 [("name", Val.vstr "renamed"), ("bogus", Val.vstr "y")]
        [leadOne] []).status = ApiStatus.ok
    ∧ (updateLead adminU 1 [("name", Val.vstr "renamed"), ("bogus", Val.vstr "y")]
        [leadOne] []).store = [{ leadOne with name := "renamed" }] := by
  decide

/-- C7 (amended): unknown fields are silently dropped — the resulting store
is exactly the one obtained from the body restricted to the allow-list —
and the request is rejected with `InvalidArgument` precisely when no
allow-listed field is present at all. -/
theorem update_unknown_fields_dropped (u : User) (id : Nat)
    (body : List (String × Val)) (store : List Lead) (log : List AuditRecord) :
    ((updateLead u id body store log).status = ApiStatus.badRequest
      ↔ updateFieldsOf body = [])
    ∧ (updateLead u id body store log).store
        = (updateLead u id (updateFieldsOf body) store log).store := by
  have hf : updateFieldsOf (updateFieldsOf body) = updateFieldsOf body := by
    unfold updateFieldsOf
    rw [List.filter_filter]
    simp
  constructor
  · unfold updateLead
    cases h : (updateFieldsOf body).isEmpty
    · rw [List.isEmpty_eq_false] at h
      simp [h]
    · rw [List.isEmpty_eq_true] at h
      simp [h]
  · unfold updateLead
    rw [hf]
    cases (updateFieldsOf body).isEmpty <;> rfl

/-- Two leads with neither phone nor email. -/
def emptyContactA : Lead := { baseLead with id := 11, name := "Ghost A" }

def emptyContactB : Lead := { baseLead with id := 12, name := "Ghost B" }

/-- C5: the spec (and the intent visible in the dead `if (!key) return`
guard) is that a lead with empty phone and empty email is never grouped.
Because the `|` separator sits inside the trimmed string, the key of such a
lead is `"|"`, never falsy, so two contactless leads are grouped together:
the guard can never fire. -/
theorem findDuplicates_empty_pair_bug :
    emptyContactA.phone = "" ∧ emptyContactA.email = ""
    ∧ emptyContactB.phone = "" ∧ emptyContactB.email = ""
    ∧ dupKey emptyContactA = "|"
    ∧ findDuplicates [emptyContactA, emptyContactB]
        = [("|", [emptyContactA, emptyContactB])] := by
  decide

/-- C6: a lead created without an explicit score gets
`computeScoreBase + jitter` with jitter in 0..9, hence a score at least the
deterministic floor and strictly below floor + 10, for every jitter
value. -/
theorem created_score_bounds (d : LeadInput) (j : Nat) (hj : j < 10)
    (hd : d.score = none) :
    (computeScoreBase d : Int) ≤ createLeadScore j d
    ∧ createLeadScore j d < (computeScoreBase d : Int) + 10 := by
  simp only [createLeadScore, hd, computeScore]
  omega

/-- A concrete lead input hitting all four scoring bonuses. -/
def sampleInput : LeadInput :=
  ⟨"Sam", "555-1", "sam@x.com", "Insurance", "Website", none⟩

/-- C6 witness: concrete instantiation of `created_score_bounds`. -/
theorem created_score_bounds_witness :
    (computeScoreBase sampleInput : Int) ≤ createLeadScore 4 sampleInput
    ∧ createLeadScore 4 sampleInput < (computeScoreBase sampleInput : Int) + 10 :=
  created_score_bounds sampleInput 4 (by decide) rfl

/-- C8: for a non-telecaller caller, listing with a date range
`[dateFrom, dateTo]` (and no other filter) returns exactly the stored leads
whose `created_at` lies within the inclusive bounds, ordered
newest-first. -/
theorem list_date_range_filter (u : User) (store : List Lead) (f t : Nat)
    (hu : u.role ≠ "telecaller") :
    (∀ l, l ∈ filteredLeads "" "" "" "" (some f) (some t) (listLeads u store)
      ↔ l ∈ store ∧ f ≤ l.created_at ∧ l.created_at ≤ t)
    ∧ List.Sorted byCreatedDesc
        (filteredLeads "" "" "" "" (some f) (some t) (listLeads u store)) := by
  have hfl : ∀ L : List Lead, filteredLeads "" "" "" "" (some f) (some t) L
      = (L.filter (fun l => decide (f ≤ l.created_at))).filter
          (fun l => decide (l.created_at ≤ t)) := fun L => rfl
  have hlist : listLeads u store = List.insertionSort byCreatedDesc store := by
    simp only [listLeads]
    rw [if_neg hu]
  constructor
  · intro l
    rw [hfl, hlist]
    simp only [List.mem_filter, decide_eq_true_eq, List.mem_insertionSort]
    tauto
  · rw [hfl]
    exact ((List.sorted_insertionSort byCreatedDesc _).filter _).filter _

/-- C8 witness: concrete instantiation of `list_date_range_filter`. -/
theorem list_date_range_filter_witness :
    (∀ l, l ∈ filteredLeads "" "" "" "" (some 50) (some 150)
        (listLeads adminU [leadOne, leadTwo])
      ↔ l ∈ [leadOne, leadTwo] ∧ 50 ≤ l.created_at ∧ l.created_at ≤ 150)
    ∧ List.Sorted byCreatedDesc
        (filteredLeads "" "" "" "" (some 50) (some 150)
          (listLeads adminU [leadOne, leadTwo])) :=
  list_date_range_filter adminU [leadOne, leadTwo] 50 150 (by decide)

/-- A lead whose follow-up falls on day 0. -/
def followUpToday : Lead := { baseLead with id := 21, next_follow_up := some 0 }

/-- C9: the claim states the "missed" count covers exactly the leads with
`nextFollowUp` strictly before today.  At one hour past midnight of day 0,
a lead whose follow-up is day 0 — today, not strictly before it — is
already counted as missed, because the code compares the follow-up day's
midnight against the current instant, not day against day. -/
theorem alerts_missed_counterexample :
    todayOf 3600 = 0
    ∧ followUpToday.next_follow_up = some (todayOf 3600)
    ∧ dueTodayCount 3600 [followUpToday] = 1
    ∧ missedCount 3600 [followUpToday] = 1 := by
  decide

/-- C9 (amended): "due today" and "pending" are as claimed, and the counts
are a function of snapshot and instant, but "missed" counts the leads whose
follow-up day is strictly before today together with the leads due today
whenever the instant is past today's midnight. -/
theorem alerts_missed_characterization (now : Nat) (leadsArr : List Lead) :
    missedCount now leadsArr
      = (leadsArr.filter (fun l =>
          match l.next_follow_up with
          | some fDay =>
              decide (fDay < todayOf now)
              || (decide (fDay = todayOf now) && decide (todayOf now * dayLen < now))
          | none => false)).length := by
  unfold missedCount
  congr 1
  apply List.filter_congr
  intro l _
  cases hnf : l.next_follow_up with
  | none => rfl
  | some fDay =>
    simp only
    rw [← Bool.decide_and, ← Bool.decide_or]
    apply decide_eq_decide.mpr
    unfold todayOf dayLen
    omega

/-- A register request whose `role` is present but the empty string. -/
def roleEmptyBody : RegisterBody :=
  ⟨some "Eve", some "eve@x.com", some "pw", some "", none⟩

/-- C10: the claim states the account is created with exactly the role
string supplied, defaulting to "telecaller" only when the role field is
absent.  `role || 'telecaller'` also defaults on any falsy value: with
`role: ""` supplied, the created account's role is "telecaller", not the
supplied "". -/
theorem register_empty_role_counterexample :
    roleEmptyBody.role = some ""
    ∧ (register roleEmptyBody [] []).status = ApiStatus.ok
    ∧ (register roleEmptyBody [] []).users
        = [⟨1, "Eve", "eve@x.com", "telecaller", "light"⟩]
    ∧ ("telecaller" : String) ≠ "" := by
  decide

/-- C10 (amended): registration needs no credential, and with a present,
non-empty role string the account is created with exactly that role — in
particular an unauthenticated caller can self-register as "admin" — and the
returned signed token asserts the same role; the "telecaller" default
applies whenever `role` is absent or falsy (e.g. the empty string). -/
theorem register_role_propagation (body : RegisterBody) (users : List User)
    (log : List AuditRecord) (e p r : String)
    (he : body.email = some e) (hp : body.password = some p)
    (hr : body.role = some r) (he' : e ≠ "") (hp' : p ≠ "")
    (hfresh : ∀ w ∈ users, w.email ≠ e) :
    (register body users log).status = ApiStatus.ok
    ∧ (∃ pl : AuthPayload,
        (register body users log).payload = some ⟨pl, pl⟩
        ∧ pl.role = (if r = "" then "telecaller" else r))
    ∧ (∃ newU : User,
        (register body users log).users = users ++ [newU]
        ∧ newU.role = (if r = "" then "telecaller" else r)) := by
  have hany : (users.any (fun w => w.email = e)) = false := by
    rw [List.any_eq_false]
    intro w hw
    simpa using hfresh w hw
  have hor : ¬(e = "" ∨ p = "") := by
    rintro (h | h)
    · exact he' h
    · exact hp' h
  unfold register
  rw [he, hp]
  dsimp only
  rw [if_neg hor]
  rw [if_neg (show ¬((users.any fun u => decide (u.email = e)) = true) by rw [hany]; simp)]
  dsimp only
  rw [hr]
  simp only [strOrDefault]
  exact ⟨trivial, ⟨_, rfl, rfl⟩, ⟨_, rfl, rfl⟩⟩

/-- A register request self-assigning the admin role. -/
def adminRegBody : RegisterBody :=
  ⟨some "Mallory", some "mallory@x.com", some "pw", some "admin", none⟩

/-- C10 witness: concrete instantiation of `register_role_propagation` —
an unauthenticated admin self-registration. -/
theorem register_role_propagation_witness :
    (register adminRegBody [] []).status = ApiStatus.ok
    ∧ (∃ pl : AuthPayload,
        (register adminRegBody [] []).payload = some ⟨pl, pl⟩
        ∧ pl.role = (if ("admin" : String) = "" then "telecaller" else "admin"))
    ∧ (∃ newU : User,
        (register adminRegBody [] []).users = [] ++ [newU]
        ∧ newU.role = (if ("admin" : String) = "" then "telecaller" else "admin")) :=
  register_role_propagation adminRegBody [] [] "mallory@x.com" "pw" "admin"
    rfl rfl rfl (by decide) (by decide) (by intro w hw; cases hw)
